import Mathlib

/-!
Verification of the NanoSmart packaging shelf-life estimator.

The core of the application is `calculate_shelf_life`, which combines a static
food/nano-material catalog (`load_data`) with environmental parameters, and
`generate_recommendation`, which produces advisory strings.  Numeric values are
modelled by `ℚ`; Python `round(x, n)` is modelled by round-half-to-even on the
exact rational value (`py_round_int` / `round_to`).  A missing dictionary key
(Python `KeyError`) is modelled by `Option.none`.
-/

/-- The nested `shelf_life` dictionary of a food entry. -/
structure ShelfLife where
  tanpa_nano : ℚ
  dengan_nano : ℚ
  deriving DecidableEq, Repr

/-- One entry of the `food_data` dictionary in `load_data`. -/
structure FoodCategory where
  shelf_life : ShelfLife
  temp_sensitif : ℚ
  humidity_sensitif : ℚ
  microbial_growth_rate : ℚ
  color : String
  deriving DecidableEq, Repr

/-- One entry of the `nano_data` dictionary in `load_data`. -/
structure NanoMaterial where
  effectiveness : ℚ
  barrier_property : ℚ
  antimicrobial : ℚ
  cost : String
  color : String
  deriving DecidableEq, Repr

def daging : FoodCategory :=
  { shelf_life := { tanpa_nano := 7, dengan_nano := 14 }, temp_sensitif := 5,
    humidity_sensitif := 70, microbial_growth_rate := 0.15, color := "#FF6B6B" }

def ikan : FoodCategory :=
  { shelf_life := { tanpa_nano := 3, dengan_nano := 7 }, temp_sensitif := 2,
    humidity_sensitif := 80, microbial_growth_rate := 0.25, color := "#4ECDC4" }

def buah : FoodCategory :=
  { shelf_life := { tanpa_nano := 10, dengan_nano := 21 }, temp_sensitif := 8,
    humidity_sensitif := 85, microbial_growth_rate := 0.08, color := "#FFD166" }

def sayur : FoodCategory :=
  { shelf_life := { tanpa_nano := 7, dengan_nano := 14 }, temp_sensitif := 6,
    humidity_sensitif := 90, microbial_growth_rate := 0.12, color := "#06D6A0" }

def produk_olahan : FoodCategory :=
  { shelf_life := { tanpa_nano := 30, dengan_nano := 60 }, temp_sensitif := 15,
    humidity_sensitif := 60, microbial_growth_rate := 0.05, color := "#118AB2" }

def nano_ag : NanoMaterial :=
  { effectiveness := 0.85, barrier_property := 0.9, antimicrobial := 0.95,
    cost := "Tinggi", color := "#C5C5C5" }

def nano_zno : NanoMaterial :=
  { effectiveness := 0.75, barrier_property := 0.8, antimicrobial := 0.85,
    cost := "Sedang", color := "#F0E68C" }

def nano_clay : NanoMaterial :=
  { effectiveness := 0.7, barrier_property := 0.95, antimicrobial := 0.65,
    cost := "Rendah", color := "#D2B48C" }

def nano_kitosan : NanoMaterial :=
  { effectiveness := 0.8, barrier_property := 0.85, antimicrobial := 0.9,
    cost := "Sedang", color := "#98FB98" }

/-- The `food_data` dictionary of `load_data`, as a keyed lookup; a missing
key (Python `KeyError`) is `none`. -/
def food_data (food_type : String) : Option FoodCategory :=
  if food_type = "Daging" then some daging
  else if food_type = "Ikan" then some ikan
  else if food_type = "Buah" then some buah
  else if food_type = "Sayur" then some sayur
  else if food_type = "Produk Olahan" then some produk_olahan
  else none

/-- The `nano_data` dictionary of `load_data`, as a keyed lookup. -/
def nano_data (nano_type : String) : Option NanoMaterial :=
  if nano_type = "Nano-Ag" then some nano_ag
  else if nano_type = "Nano-ZnO" then some nano_zno
  else if nano_type = "Nano-clay" then some nano_clay
  else if nano_type = "Nano-kitosan" then some nano_kitosan
  else none

/-- The food identifiers offered by the simulation page. -/
def food_types : List String := ["Daging", "Ikan", "Buah", "Sayur", "Produk Olahan"]

/-- The nano-material identifiers offered by the simulation page. -/
def nano_types : List String := ["Nano-Ag", "Nano-ZnO", "Nano-clay", "Nano-kitosan"]

/-- Python `round` to an integer on the exact rational value:
round half to even. -/
def py_round_int (q : ℚ) : ℤ :=
  if q - ⌊q⌋ < 1 / 2 then ⌊q⌋
  else if 1 / 2 < q - ⌊q⌋ then ⌊q⌋ + 1
  else if ⌊q⌋ % 2 = 0 then ⌊q⌋ else ⌊q⌋ + 1

/-- Python `round(q, n)`. -/
def round_to (n : ℕ) (q : ℚ) : ℚ := (py_round_int (q * 10 ^ n) : ℚ) / 10 ^ n

/-- `optimal_temp = 4` in `calculate_shelf_life`. -/
def optimal_temp : ℚ := 4

/-- The temperature factor of `calculate_shelf_life`. -/
def temp_factor (temperature : ℚ) : ℚ :=
  if temperature > optimal_temp then
    max 0.5 (1.0 - (temperature - optimal_temp) * 0.1)
  else 1.0

/-- The humidity factor of `calculate_shelf_life`. -/
def humidity_factor (food : FoodCategory) (humidity : ℚ) : ℚ :=
  if |humidity - food.humidity_sensitif| > 10 then 0.8 else 1.0

/-- The nano-material factor of `calculate_shelf_life`. -/
def nano_factor (nano : NanoMaterial) : ℚ := 1.0 + nano.effectiveness * 0.5

/-- The unrounded adjusted shelf life
`base_shelf_life * nano_factor * temp_factor * humidity_factor`. -/
def shelf_life_with_nano (food : FoodCategory) (nano : NanoMaterial)
    (temperature humidity : ℚ) : ℚ :=
  food.shelf_life.tanpa_nano * nano_factor nano * temp_factor temperature *
    humidity_factor food humidity

/-- The unrounded microbial level
`microbial_growth_rate * storage_days * (1 - antimicrobial)`. -/
def current_microbial (food : FoodCategory) (nano : NanoMaterial)
    (storage_days : ℚ) : ℚ :=
  food.microbial_growth_rate * storage_days * (1 - nano.antimicrobial)

/-- The status triple `(status, status_color, indicator_color)` chosen from the
microbial level. -/
def status_of (m : ℚ) : String × String × String :=
  if m < 0.3 then ("Segar", "🟢", "green")
  else if m < 0.7 then ("Mulai Rusak", "🟡", "yellow")
  else ("Tidak Layak", "🔴", "red")

/-- The unrounded remaining days `max(0, shelf_life_with_nano - storage_days)`. -/
def days_remaining_of (with_nano storage_days : ℚ) : ℚ :=
  max 0 (with_nano - storage_days)

def warm_advisory : String :=
  "Suhu penyimpanan terlalu tinggi. Simpan di refrigerator (<4°C)."

def sensitive_advisory (food_type : String) : String :=
  s!"{food_type} sangat sensitif. Gunakan packaging dengan barrier property tinggi."

def nano_ag_advisory : String :=
  "Nano-Ag efektif untuk produk dengan nilai ekonomi tinggi."

def kitosan_advisory : String :=
  "Nano-kitosan ramah lingkungan dan biodegradable."

def closing_advisory : String :=
  "Simpan dalam wadah tertutup untuk memaksimalkan efektivitas nano packaging."

/-- `generate_recommendation(food_type, nano_type, temperature)`. -/
def generate_recommendation (food_type nano_type : String)
    (temperature : ℚ) : List String :=
  let recommendations : List String := []
  let recommendations :=
    if temperature > 10 then recommendations ++ [warm_advisory] else recommendations
  let recommendations :=
    if food_type ∈ ["Daging", "Ikan"] then
      recommendations ++ [sensitive_advisory food_type]
    else recommendations
  let recommendations :=
    if nano_type = "Nano-Ag" then recommendations ++ [nano_ag_advisory]
    else if nano_type = "Nano-kitosan" then recommendations ++ [kitosan_advisory]
    else recommendations
  recommendations ++ [closing_advisory]

/-- The dictionary returned by `calculate_shelf_life`. -/
structure Result where
  status : String
  status_color : String
  indicator_color : String
  shelf_life_without_nano : ℚ
  shelf_life_with_nano : ℚ
  days_remaining : ℚ
  microbial_level : ℚ
  recommendation : List String
  deriving DecidableEq, Repr

/-- `calculate_shelf_life`, generic in the catalog it reads (the source reads
the catalog through `load_data` inside the function body).  A `KeyError` on
either dictionary lookup is `none`. -/
def calculate_shelf_life_core (fd : String → Option FoodCategory)
    (nd : String → Option NanoMaterial) (food_type nano_type : String)
    (temperature storage_days humidity : ℚ) : Option Result :=
  match fd food_type, nd nano_type with
  | some food, some nano =>
      let base_shelf_life := food.shelf_life.tanpa_nano
      let with_nano := shelf_life_with_nano food nano temperature humidity
      let cm := current_microbial food nano storage_days
      let st := status_of cm
      some
        { status := st.1
          status_color := st.2.1
          indicator_color := st.2.2
          shelf_life_without_nano := base_shelf_life
          shelf_life_with_nano := round_to 1 with_nano
          days_remaining := round_to 1 (days_remaining_of with_nano storage_days)
          microbial_level := round_to 2 cm
          recommendation := generate_recommendation food_type nano_type temperature }
  | _, _ => none

/-- `calculate_shelf_life` as the application calls it, over the catalog of
`load_data`. -/
def calculate_shelf_life (food_type nano_type : String)
    (temperature storage_days humidity : ℚ) : Option Result :=
  calculate_shelf_life_core food_data nano_data food_type nano_type
    temperature storage_days humidity

/-- The largest effectiveness coefficient among the materials offered by the
application. -/
def max_effectiveness : ℚ :=
  ((nano_types.filterMap nano_data).map NanoMaterial.effectiveness).foldr max 0

/-! ### Facts about the catalog and the factors -/

theorem max_effectiveness_eq : max_effectiveness = 17 / 20 := by
  simp +decide [max_effectiveness, nano_types, nano_data, nano_ag, nano_zno,
    nano_clay, nano_kitosan]
  norm_num

theorem food_data_facts (ft : String) (f : FoodCategory)
    (h : food_data ft = some f) :
    0 < f.shelf_life.tanpa_nano ∧ 0 < f.microbial_growth_rate := by
  unfold food_data at h
  split_ifs at h
  all_goals first
    | exact Option.noConfusion h
    | (injection h with h
       subst h
       norm_num [daging, ikan, buah, sayur, produk_olahan])

theorem nano_data_facts (nt : String) (n : NanoMaterial)
    (h : nano_data nt = some n) :
    7 / 10 ≤ n.effectiveness ∧ n.effectiveness ≤ 17 / 20 := by
  unfold nano_data at h
  split_ifs at h
  all_goals first
    | exact Option.noConfusion h
    | (injection h with h
       subst h
       norm_num [nano_ag, nano_zno, nano_clay, nano_kitosan])

theorem temp_factor_bounds (t : ℚ) :
    1 / 2 ≤ temp_factor t ∧ temp_factor t ≤ 1 := by
  unfold temp_factor optimal_temp
  split_ifs with h
  · exact ⟨le_trans (by norm_num) (le_max_left _ _), max_le (by norm_num) (by linarith)⟩
  · norm_num

theorem temp_factor_antitone {t1 t2 : ℚ} (h1 : t1 > optimal_temp)
    (h12 : t1 ≤ t2) : temp_factor t2 ≤ temp_factor t1 := by
  unfold temp_factor
  rw [if_pos (lt_of_lt_of_le h1 h12), if_pos h1]
  exact max_le_max (le_refl _) (by unfold optimal_temp at *; linarith)

theorem humidity_factor_cases (f : FoodCategory) (h : ℚ) :
    humidity_factor f h = 0.8 ∨ humidity_factor f h = 1 := by
  unfold humidity_factor
  split_ifs <;> norm_num

/-! ### Facts about the rounding model -/

theorem le_py_round_int (q : ℚ) : ⌊q⌋ ≤ py_round_int q := by
  unfold py_round_int
  split_ifs <;> omega

theorem py_round_int_le (q : ℚ) : py_round_int q ≤ ⌊q⌋ + 1 := by
  unfold py_round_int
  split_ifs <;> omega

theorem py_round_int_mono {x y : ℚ} (h : x ≤ y) :
    py_round_int x ≤ py_round_int y := by
  rcases lt_or_le ⌊x⌋ ⌊y⌋ with hf | hf
  · exact le_trans (py_round_int_le x)
      (le_trans (by omega) (le_py_round_int y))
  · have hfe : ⌊y⌋ = ⌊x⌋ := le_antisymm hf (Int.floor_le_floor h)
    unfold py_round_int
    rw [hfe]
    split_ifs <;> first | omega | linarith

theorem round_to_nonneg (n : ℕ) {x : ℚ} (h : 0 ≤ x) : 0 ≤ round_to n x := by
  unfold round_to
  apply div_nonneg _ (by positivity)
  have h0 : (0 : ℤ) ≤ py_round_int (x * 10 ^ n) :=
    le_trans (Int.floor_nonneg.mpr (mul_nonneg h (by positivity))) (le_py_round_int _)
  exact_mod_cast h0

theorem round_to_mono (n : ℕ) {x y : ℚ} (h : x ≤ y) :
    round_to n x ≤ round_to n y := by
  unfold round_to
  have h1 : py_round_int (x * 10 ^ n) ≤ py_round_int (y * 10 ^ n) :=
    py_round_int_mono (mul_le_mul_of_nonneg_right h (by positivity))
  have h2 : ((py_round_int (x * 10 ^ n) : ℚ)) ≤ (py_round_int (y * 10 ^ n) : ℚ) := by
    exact_mod_cast h1
  exact (div_le_div_iff_of_pos_right (by positivity)).mpr h2

/-! ### The claims -/

/-- C1: for food "Daging", material "Nano-Ag", temperature 4, storage 3 days,
humidity 70, `calculate_shelf_life` has temperature factor 1, humidity factor
1, material factor 1.425, unrounded adjusted shelf life 9.975 rounding to
10.0, microbial level 0.15 * 3 * (1 - 0.95) = 0.0225 rounding to 0.02, status
"Segar", and remaining days rounding to 7.0. -/
theorem c1_daging_nano_ag_scenario :
    temp_factor 4 = 1 ∧
    humidity_factor daging 70 = 1 ∧
    nano_factor nano_ag = 1.425 ∧
    shelf_life_with_nano daging nano_ag 4 70 = 9.975 ∧
    current_microbial daging nano_ag 3 = 0.0225 ∧
    (calculate_shelf_life "Daging" "Nano-Ag" 4 3 70).map
        (fun r => (r.status, r.shelf_life_with_nano, r.days_remaining,
          r.microbial_level))
      = some ("Segar", 10, 7, 0.02) := by
  refine ⟨?_, ?_, ?_, ?_, ?_, ?_⟩
  · norm_num [temp_factor, optimal_temp]
  · norm_num [humidity_factor, daging]
  · norm_num [nano_factor, nano_ag]
  · norm_num [shelf_life_with_nano, nano_factor, temp_factor, optimal_temp,
      humidity_factor, daging, nano_ag]
  · norm_num [current_microbial, daging, nano_ag]
  · simp +decide [calculate_shelf_life, calculate_shelf_life_core, food_data,
      nano_data]
    norm_num [shelf_life_with_nano, nano_factor, temp_factor, optimal_temp,
      humidity_factor, current_microbial, status_of, days_remaining_of,
      round_to, py_round_int, daging, nano_ag]

/-- C2: `calculate_shelf_life` fails (with Python's lookup failure, modelled
as `none`) exactly when the food identifier or the material identifier is
absent from the catalog; on known identifiers it never fails and never
substitutes a default entry. -/
theorem c2_unknown_id_fails (food_type nano_type : String)
    (temperature storage_days humidity : ℚ) :
    calculate_shelf_life food_type nano_type temperature storage_days humidity
        = none
      ↔ (food_data food_type = none ∨ nano_data nano_type = none) := by
  unfold calculate_shelf_life calculate_shelf_life_core
  cases food_data food_type <;> cases nano_data nano_type <;> simp

theorem c2_witness :
    calculate_shelf_life "Keju" "Nano-Ag" 4 3 70 = none :=
  (c2_unknown_id_fails "Keju" "Nano-Ag" 4 3 70).mpr
    (Or.inl (by simp +decide [food_data]))

/-- C3 counterexample: at storageDays = 0 (< 1), `calculate_shelf_life` does
not report a failure: it returns a complete successful result (status
"Segar"), so the claimed `InvalidArgumentError` is never produced. -/
theorem c3_counterexample :
    (calculate_shelf_life "Daging" "Nano-Ag" 4 0 70).isSome = true ∧
    (calculate_shelf_life "Daging" "Nano-Ag" 4 0 70).map Result.status
      = some "Segar" := by
  constructor
  · simp +decide [calculate_shelf_life, calculate_shelf_life_core, food_data,
      nano_data]
  · simp +decide [calculate_shelf_life, calculate_shelf_life_core, food_data,
      nano_data]
    norm_num [current_microbial, status_of, daging, nano_ag]

/-- C3 (amended): `calculate_shelf_life` performs no validation of
storageDays or humidity: for every known food and material and arbitrary
numeric inputs it returns a successful (non-failed, complete) result; range
enforcement is left to the presentation layer's input widgets. -/
theorem c3_no_validation (food_type nano_type : String)
    (temperature storage_days humidity : ℚ) (f : FoodCategory)
    (n : NanoMaterial) (hf : food_data food_type = some f)
    (hn : nano_data nano_type = some n) :
    (calculate_shelf_life food_type nano_type temperature storage_days
        humidity).isSome = true := by
  unfold calculate_shelf_life calculate_shelf_life_core
  rw [hf, hn]
  rfl

theorem c3_witness :
    (calculate_shelf_life "Sayur" "Nano-clay" 25 0 20).isSome = true :=
  c3_no_validation "Sayur" "Nano-clay" 25 0 20 sayur nano_clay
    (by simp +decide [food_data]) (by simp +decide [nano_data])

/-- C4: for every valid request the unrounded adjusted shelf life is at least
half the food's base shelf life and at most base * (1 + maxEffectiveness/2),
and it is monotone in the chosen material's effectiveness with everything
else fixed. -/
theorem c4_adjusted_shelf_life_bounds (food_type nt1 nt2 : String)
    (temperature storage_days humidity : ℚ) (f : FoodCategory)
    (n1 n2 : NanoMaterial) (hf : food_data food_type = some f)
    (hn1 : nano_data nt1 = some n1) (hn2 : nano_data nt2 = some n2)
    (hd : 1 ≤ storage_days) (hh1 : 30 ≤ humidity) (hh2 : humidity ≤ 100) :
    1 / 2 * f.shelf_life.tanpa_nano
        ≤ shelf_life_with_nano f n1 temperature humidity ∧
    shelf_life_with_nano f n1 temperature humidity
        ≤ f.shelf_life.tanpa_nano * (1 + max_effectiveness * (1 / 2)) ∧
    (n1.effectiveness ≤ n2.effectiveness →
      shelf_life_with_nano f n1 temperature humidity
        ≤ shelf_life_with_nano f n2 temperature humidity) := by
  obtain ⟨hb, -⟩ := food_data_facts _ _ hf
  obtain ⟨he1, he1'⟩ := nano_data_facts _ _ hn1
  obtain ⟨he2, he2'⟩ := nano_data_facts _ _ hn2
  obtain ⟨ht1, ht2⟩ := temp_factor_bounds temperature
  have hhf : 4 / 5 ≤ humidity_factor f humidity ∧
      humidity_factor f humidity ≤ 1 := by
    rcases humidity_factor_cases f humidity with h | h <;> rw [h] <;> norm_num
  have hnf : 27 / 20 ≤ nano_factor n1 := by unfold nano_factor; linarith
  have hnf' : nano_factor n1 ≤ 57 / 40 := by unfold nano_factor; linarith
  have hnfpos : (0 : ℚ) ≤ nano_factor n1 := by linarith
  have htpos : (0 : ℚ) ≤ temp_factor temperature := by linarith
  have hhpos : (0 : ℚ) ≤ humidity_factor f humidity := by linarith [hhf.1]
  have h12 : 27 / 40 ≤ nano_factor n1 * temp_factor temperature := by
    have := mul_le_mul hnf ht1 (by norm_num) hnfpos
    linarith
  have h12' : nano_factor n1 * temp_factor temperature ≤ 57 / 40 := by
    have := mul_le_mul hnf' ht2 htpos (by norm_num)
    linarith
  have h12pos : (0 : ℚ) ≤ nano_factor n1 * temp_factor temperature :=
    mul_nonneg hnfpos htpos
  have h123 : 27 / 50 ≤
      nano_factor n1 * temp_factor temperature * humidity_factor f humidity := by
    have := mul_le_mul h12 hhf.1 (by norm_num) h12pos
    linarith
  have h123' : nano_factor n1 * temp_factor temperature *
      humidity_factor f humidity ≤ 57 / 40 := by
    have := mul_le_mul h12' hhf.2 hhpos (by norm_num)
    linarith
  refine ⟨?_, ?_, ?_⟩
  · unfold shelf_life_with_nano
    nlinarith [h123, hb]
  · unfold shelf_life_with_nano
    rw [max_effectiveness_eq]
    nlinarith [h123', hb]
  · intro he
    unfold shelf_life_with_nano nano_factor
    nlinarith [he, hb, mul_nonneg (mul_nonneg hb.le htpos) hhpos]

theorem c4_witness :
    1 / 2 * daging.shelf_life.tanpa_nano
        ≤ shelf_life_with_nano daging nano_clay 20 100 ∧
    shelf_life_with_nano daging nano_clay 20 100
        ≤ daging.shelf_life.tanpa_nano * (1 + max_effectiveness * (1 / 2)) ∧
    (nano_clay.effectiveness ≤ nano_ag.effectiveness →
      shelf_life_with_nano daging nano_clay 20 100
        ≤ shelf_life_with_nano daging nano_ag 20 100) :=
  c4_adjusted_shelf_life_bounds "Daging" "Nano-clay" "Nano-Ag" 20 3 100
    daging nano_clay nano_ag
    (by simp +decide [food_data]) (by simp +decide [nano_data])
    (by simp +decide [nano_data]) (by norm_num) (by norm_num) (by norm_num)

/-- C5: the status is a threshold function of the microbial level with
half-open bands: below 0.3 the status is "Segar", exactly 0.3 gives
"Mulai Rusak", exactly 0.7 gives "Tidak Layak"; both boundary levels are
reached through `calculate_shelf_life` (Ikan for 8 days with Nano-ZnO gives
microbial level exactly 0.3, with Nano-clay exactly 0.7). -/
theorem c5_status_thresholds :
    (∀ m : ℚ, m < 0.3 → (status_of m).1 = "Segar") ∧
    (status_of 0.3).1 = "Mulai Rusak" ∧
    (status_of 0.7).1 = "Tidak Layak" ∧
    (calculate_shelf_life "Ikan" "Nano-ZnO" 4 8 80).map Result.status
      = some "Mulai Rusak" ∧
    (calculate_shelf_life "Ikan" "Nano-clay" 4 8 80).map Result.status
      = some "Tidak Layak" := by
  refine ⟨?_, ?_, ?_, ?_, ?_⟩
  · intro m hm
    unfold status_of
    rw [if_pos hm]
  · norm_num [status_of]
  · norm_num [status_of]
  · simp +decide [calculate_shelf_life, calculate_shelf_life_core, food_data,
      nano_data]
    norm_num [current_microbial, status_of, ikan, nano_zno]
  · simp +decide [calculate_shelf_life, calculate_shelf_life_core, food_data,
      nano_data]
    norm_num [current_microbial, status_of, ikan, nano_clay]

theorem c5_witness : (status_of 0.15).1 = "Segar" :=
  c5_status_thresholds.1 0.15 (by norm_num)

/-- C6: for every valid request the remaining days are nonnegative and do not
exceed the adjusted shelf life, both for the unrounded values and for the
rounded fields of the returned result. -/
theorem c6_days_remaining_bounds (food_type nano_type : String)
    (temperature storage_days humidity : ℚ) (f : FoodCategory)
    (n : NanoMaterial) (r : Result) (hf : food_data food_type = some f)
    (hn : nano_data nano_type = some n) (hd : 1 ≤ storage_days)
    (hh1 : 30 ≤ humidity) (hh2 : humidity ≤ 100)
    (hr : calculate_shelf_life food_type nano_type temperature storage_days
        humidity = some r) :
    0 ≤ days_remaining_of (shelf_life_with_nano f n temperature humidity)
        storage_days ∧
    days_remaining_of (shelf_life_with_nano f n temperature humidity)
        storage_days ≤ shelf_life_with_nano f n temperature humidity ∧
    0 ≤ r.days_remaining ∧ r.days_remaining ≤ r.shelf_life_with_nano := by
  obtain ⟨hb, -⟩ := food_data_facts _ _ hf
  obtain ⟨he, he'⟩ := nano_data_facts _ _ hn
  obtain ⟨ht1, ht2⟩ := temp_factor_bounds temperature
  have hhf : 4 / 5 ≤ humidity_factor f humidity ∧
      humidity_factor f humidity ≤ 1 := by
    rcases humidity_factor_cases f humidity with h | h <;> rw [h] <;> norm_num
  have hadj : 0 ≤ shelf_life_with_nano f n temperature humidity := by
    unfold shelf_life_with_nano nano_factor
    have h1 : (0 : ℚ) ≤ 1.0 + n.effectiveness * 0.5 := by linarith
    have h2 : (0 : ℚ) ≤ temp_factor temperature := by linarith
    have h3 : (0 : ℚ) ≤ humidity_factor f humidity := by linarith [hhf.1]
    exact mul_nonneg (mul_nonneg (mul_nonneg hb.le h1) h2) h3
  have hdr0 : 0 ≤ days_remaining_of
      (shelf_life_with_nano f n temperature humidity) storage_days :=
    le_max_left 0 _
  have hdr1 : days_remaining_of
      (shelf_life_with_nano f n temperature humidity) storage_days
        ≤ shelf_life_with_nano f n temperature humidity :=
    max_le hadj (by linarith)
  refine ⟨hdr0, hdr1, ?_, ?_⟩ <;>
  · simp only [calculate_shelf_life, calculate_shelf_life_core, hf, hn,
      Option.some.injEq] at hr
    subst hr
    simp only
    first
      | exact round_to_nonneg 1 hdr0
      | exact round_to_mono 1 hdr1

/-- C6 witness at a concrete valid request. -/
theorem c6_witness :
    0 ≤ days_remaining_of (shelf_life_with_nano daging nano_ag 4 70) 3 ∧
    days_remaining_of (shelf_life_with_nano daging nano_ag 4 70) 3
        ≤ shelf_life_with_nano daging nano_ag 4 70 ∧
    0 ≤ (Result.mk "Segar" "🟢" "green" 7 10 7 0.02
        (generate_recommendation "Daging" "Nano-Ag" 4)).days_remaining ∧
    (Result.mk "Segar" "🟢" "green" 7 10 7 0.02
        (generate_recommendation "Daging" "Nano-Ag" 4)).days_remaining
      ≤ (Result.mk "Segar" "🟢" "green" 7 10 7 0.02
        (generate_recommendation "Daging" "Nano-Ag" 4)).shelf_life_with_nano :=
  c6_days_remaining_bounds "Daging" "Nano-Ag" 4 3 70 daging nano_ag _
    (by simp +decide [food_data]) (by simp +decide [nano_data])
    (by norm_num) (by norm_num) (by norm_num)
    (by simp +decide [calculate_shelf_life, calculate_shelf_life_core,
          food_data, nano_data]
        norm_num [shelf_life_with_nano, nano_factor, temp_factor, optimal_temp,
          humidity_factor, current_microbial, status_of, days_remaining_of,
          round_to, py_round_int, daging, nano_ag])

/-- C7: with food, material, storage days and humidity fixed, the temperature
factor is antitone in the temperature above 4 degrees, hence the adjusted
shelf life is too, and the temperature factor never drops below 0.5. -/
theorem c7_temperature_antitone (food_type nano_type : String)
    (t1 t2 humidity : ℚ) (f : FoodCategory) (n : NanoMaterial)
    (hf : food_data food_type = some f) (hn : nano_data nano_type = some n)
    (h4 : 4 < t1) (h12 : t1 < t2) :
    temp_factor t2 ≤ temp_factor t1 ∧
    shelf_life_with_nano f n t2 humidity
        ≤ shelf_life_with_nano f n t1 humidity ∧
    (∀ t : ℚ, 1 / 2 ≤ temp_factor t) := by
  obtain ⟨hb, -⟩ := food_data_facts _ _ hf
  obtain ⟨he, he'⟩ := nano_data_facts _ _ hn
  have htf : temp_factor t2 ≤ temp_factor t1 :=
    temp_factor_antitone (by unfold optimal_temp; exact h4) h12.le
  refine ⟨htf, ?_, fun t => (temp_factor_bounds t).1⟩
  have hhf : 4 / 5 ≤ humidity_factor f humidity ∧
      humidity_factor f humidity ≤ 1 := by
    rcases humidity_factor_cases f humidity with h | h <;> rw [h] <;> norm_num
  have hnf : (0 : ℚ) ≤ nano_factor n := by unfold nano_factor; linarith
  have hhpos : (0 : ℚ) ≤ humidity_factor f humidity := by linarith [hhf.1]
  unfold shelf_life_with_nano
  have hbn : (0 : ℚ) ≤ f.shelf_life.tanpa_nano * nano_factor n :=
    mul_nonneg hb.le hnf
  exact mul_le_mul_of_nonneg_right (mul_le_mul_of_nonneg_left htf hbn) hhpos

theorem c7_witness :
    temp_factor 8 ≤ temp_factor 6 ∧
    shelf_life_with_nano daging nano_ag 8 70
        ≤ shelf_life_with_nano daging nano_ag 6 70 ∧
    (∀ t : ℚ, 1 / 2 ≤ temp_factor t) :=
  c7_temperature_antitone "Daging" "Nano-Ag" 6 8 70 daging nano_ag
    (by simp +decide [food_data]) (by simp +decide [nano_data])
    (by norm_num) (by norm_num)

/-- C8: for every input, the recommendation list ends with the closing
sealed-container advisory, has between 1 and 4 entries, is exactly the
concatenation of the four rules in their fixed order, and never contains both
the Nano-Ag advisory and the Nano-kitosan advisory. -/
theorem c8_recommendation_shape (food_type nano_type : String)
    (temperature : ℚ) :
    (generate_recommendation food_type nano_type temperature).getLast?
        = some closing_advisory ∧
    1 ≤ (generate_recommendation food_type nano_type temperature).length ∧
    (generate_recommendation food_type nano_type temperature).length ≤ 4 ∧
    generate_recommendation food_type nano_type temperature
        = (if temperature > 10 then [warm_advisory] else []) ++
          (if food_type ∈ ["Daging", "Ikan"] then [sensitive_advisory food_type]
            else []) ++
          (if nano_type = "Nano-Ag" then [nano_ag_advisory]
            else if nano_type = "Nano-kitosan" then [kitosan_advisory]
            else []) ++
          [closing_advisory] ∧
    ¬(nano_ag_advisory ∈ generate_recommendation food_type nano_type temperature ∧
      kitosan_advisory ∈ generate_recommendation food_type nano_type temperature) := by
  by_cases h2 : food_type ∈ (["Daging", "Ikan"] : List String)
  · have hft : food_type = "Daging" ∨ food_type = "Ikan" := by simpa using h2
    rcases hft with rfl | rfl <;>
      · simp +decide only [generate_recommendation]
        split_ifs <;> decide
  · simp only [generate_recommendation, if_neg h2]
    split_ifs <;> decide

theorem c8_witness :
    (generate_recommendation "Daging" "Nano-Ag" 20).getLast?
        = some closing_advisory ∧
    1 ≤ (generate_recommendation "Daging" "Nano-Ag" 20).length ∧
    (generate_recommendation "Daging" "Nano-Ag" 20).length ≤ 4 ∧
    generate_recommendation "Daging" "Nano-Ag" 20
        = (if (20 : ℚ) > 10 then [warm_advisory] else []) ++
          (if ("Daging" : String) ∈ ["Daging", "Ikan"] then
            [sensitive_advisory "Daging"] else []) ++
          (if ("Nano-Ag" : String) = "Nano-Ag" then [nano_ag_advisory]
            else if ("Nano-Ag" : String) = "Nano-kitosan" then [kitosan_advisory]
            else []) ++
          [closing_advisory] ∧
    ¬(nano_ag_advisory ∈ generate_recommendation "Daging" "Nano-Ag" 20 ∧
      kitosan_advisory ∈ generate_recommendation "Daging" "Nano-Ag" 20) :=
  c8_recommendation_shape "Daging" "Nano-Ag" 20

/-- C9: the microbial level and the status of the result do not depend on the
temperature: two requests differing only in temperature get equal
microbial_level and status fields. -/
theorem c9_temperature_independence (food_type nano_type : String)
    (t1 t2 storage_days humidity : ℚ) :
    (calculate_shelf_life food_type nano_type t1 storage_days humidity).map
        (fun r => (r.microbial_level, r.status))
      = (calculate_shelf_life food_type nano_type t2 storage_days humidity).map
        (fun r => (r.microbial_level, r.status)) := by
  unfold calculate_shelf_life calculate_shelf_life_core
  cases food_data food_type <;> cases nano_data nano_type <;> rfl

/-- The fields of a food entry that `calculate_shelf_life` can observe
(everything except `temp_sensitif` and the `dengan_nano` figure). -/
def food_obs : Option FoodCategory → Option (ℚ × ℚ × ℚ × String)
  | none => none
  | some f => some (f.shelf_life.tanpa_nano, f.humidity_sensitif,
      f.microbial_growth_rate, f.color)

/-- The fields of a material entry that `calculate_shelf_life` can observe
(everything except `barrier_property`). -/
def nano_obs : Option NanoMaterial → Option (ℚ × ℚ × String × String)
  | none => none
  | some n => some (n.effectiveness, n.antimicrobial, n.cost, n.color)

/-- C10: two catalogs that agree on everything except the materials'
`barrier_property`, the foods' `temp_sensitif` and the foods' `dengan_nano`
shelf-life figure make `calculate_shelf_life` return identical results on
every request. -/
theorem c10_unused_catalog_fields (fd1 fd2 : String → Option FoodCategory)
    (nd1 nd2 : String → Option NanoMaterial)
    (hfd : ∀ id, food_obs (fd1 id) = food_obs (fd2 id))
    (hnd : ∀ id, nano_obs (nd1 id) = nano_obs (nd2 id))
    (food_type nano_type : String)
    (temperature storage_days humidity : ℚ) :
    calculate_shelf_life_core fd1 nd1 food_type nano_type temperature
        storage_days humidity
      = calculate_shelf_life_core fd2 nd2 food_type nano_type temperature
        storage_days humidity := by
  have hf := hfd food_type
  have hn := hnd nano_type
  unfold calculate_shelf_life_core
  cases h1 : fd1 food_type with
  | none =>
      cases h2 : fd2 food_type with
      | none => rfl
      | some f2 => rw [h1, h2] at hf; exact absurd hf (by simp [food_obs])
  | some f1 =>
      cases h2 : fd2 food_type with
      | none => rw [h1, h2] at hf; exact absurd hf (by simp [food_obs])
      | some f2 =>
          rw [h1, h2] at hf
          simp only [food_obs, Option.some.injEq, Prod.mk.injEq] at hf
          obtain ⟨e1, e2, e3, e4⟩ := hf
          cases h3 : nd1 nano_type with
          | none =>
              cases h4 : nd2 nano_type with
              | none => rfl
              | some n2 => rw [h3, h4] at hn; exact absurd hn (by simp [nano_obs])
          | some n1 =>
              cases h4 : nd2 nano_type with
              | none => rw [h3, h4] at hn; exact absurd hn (by simp [nano_obs])
              | some n2 =>
                  rw [h3, h4] at hn
                  simp only [nano_obs, Option.some.injEq, Prod.mk.injEq] at hn
                  obtain ⟨g1, g2, g3, g4⟩ := hn
                  simp only [shelf_life_with_nano, humidity_factor, nano_factor,
                    current_microbial, days_remaining_of, e1, e2, e3, g1, g2]

theorem c10_witness :
    calculate_shelf_life_core food_data nano_data "Daging" "Nano-Ag" 4 3 70
      = calculate_shelf_life_core
          (fun id => (food_data id).map (fun f =>
            { f with temp_sensitif := 0,
                     shelf_life := { f.shelf_life with dengan_nano := 0 } }))
          (fun id => (nano_data id).map (fun n =>
            { n with barrier_property := 0 }))
          "Daging" "Nano-Ag" 4 3 70 :=
  c10_unused_catalog_fields _ _ _ _
    (fun id => by cases food_data id <;> rfl)
    (fun id => by cases nano_data id <;> rfl)
    "Daging" "Nano-Ag" 4 3 70
